import Mathlib

/-!
Verification development for the moveFact repository.

The repository is a small Next.js application.  The parts embedded here are
the pieces of its own logic that the specification describes:

* the fallback fact-selection algorithm of `src/app/api/generate-fact/route.ts`
  (`getMovieSpecificFact` and its inner helper `getFactFromArray`);
* the POST handler of that route (validation, fallback, LLM degradation);
* the movie search proxy (`/api/search-movies`) with its static fallback
  catalog (`getFallbackMovies`);
* the two favorite-movie write endpoints (`/api/user/favorite-movie` with a
  `favoriteMovie` body field, and the `set-movie` variant with a `movie`
  body field) over an abstract user-preference store.

External effects are made explicit: the random draw of `Math.random()` is an
oracle argument `rand` (the code uses `Math.floor(Math.random()*n)`, i.e. an
arbitrary index below `n`, which we model as `rand % n`); the outcome of the
outbound TMDB call and of the LLM call are oracle arguments; the Prisma store
is a function from user id to an optional record, with `prisma.user.update`
failing (throwing) when the record is absent.  JavaScript truthiness of the
string and number parameters is modelled exactly: a string is truthy iff it
is nonempty, a number is truthy iff it is nonzero, `undefined` is falsy.
-/

/-- Model of JavaScript `String.prototype.toLowerCase`, lowercasing character
by character (written over the character list so that it evaluates in the
kernel; `String.toLower` does exactly this per character). -/
def strToLower (s : String) : String :=
  String.mk (s.data.map Char.toLower)

/-- Boolean test that `needle` is a leading segment of `hay` (character lists,
used to model JavaScript `String.prototype.includes`). -/
def charsLeads : List Char → List Char → Bool
  | [], _ => true
  | _ :: _, [] => false
  | a :: as, b :: bs => a == b && charsLeads as bs

/-- Boolean test that `needle` occurs contiguously inside `hay`;
`charsIncludes [] []` is `true`, matching JavaScript `"".includes("")`. -/
def charsIncludes (needle : List Char) : List Char → Bool
  | [] => charsLeads needle []
  | b :: t => charsLeads needle (b :: t) || charsIncludes needle t

/-- Model of JavaScript `hay.includes(needle)` on strings. -/
def strIncludes (hay needle : String) : Bool :=
  charsIncludes needle.toList hay.toList

/-- Candidate facts stored under the key `"home alone"` in the `facts` table of
`generate-fact/route.ts`. -/
def homeAloneFacts : List String :=
  [ "Home Alone was originally written for John Hughes\x27 own son, and the famous scream face was inspired by Edvard Munch\x27s painting \x27The Scream\x27.",
    "Macaulay Culkin was paid $100,000 for the first Home Alone, but earned $4.5 million for Home Alone 2.",
    "The tarantula used in the movie was actually harmless, and Daniel Stern\x27s scream was dubbed in later because his real scream was too loud." ]

/-- Candidate facts stored under the key `"home alone 2"`. -/
def homeAlone2Facts : List String :=
  [ "Home Alone 2 was the first film to be shot inside the Plaza Hotel, and Donald Trump has a cameo directing Kevin to the lobby.",
    "The pigeon lady was played by Brenda Fricker, who won an Oscar for \x27My Left Foot\x27 the same year Home Alone was released.",
    "Tim Curry was originally cast as the hotel concierge but was replaced by Rob Schneider after creative differences." ]

/-- Candidate facts stored under the key `"lost in new york"`. -/
def lostInNewYorkFacts : List String :=
  [ "Home Alone 2: Lost in New York was the first film to be shot inside the Plaza Hotel, and Donald Trump has a cameo directing Kevin to the lobby.",
    "The pigeon lady was played by Brenda Fricker, who won an Oscar for \x27My Left Foot\x27 the same year Home Alone was released.",
    "Tim Curry was originally cast as the hotel concierge but was replaced by Rob Schneider after creative differences." ]

/-- Candidate facts stored under the key `"titanic"`. -/
def titanicFacts : List String :=
  [ "The famous \x27I\x27m flying\x27 scene was filmed against a real sunset, and Kate Winslet\x27s hair kept getting caught in Leo\x27s mouth during takes.",
    "James Cameron drew the nude sketches of Rose himself, and the hands shown sketching in the movie are actually his hands.",
    "The elderly couple lying in bed as the ship sinks were based on the real Ida and Isidor Straus, who died on the Titanic." ]

/-- Candidate facts stored under the key `"avatar"`. -/
def avatarFacts : List String :=
  [ "James Cameron developed the technology for Avatar over 14 years, waiting for CGI to advance enough to bring his vision to life.",
    "The Na\x27vi language was created by linguist Paul Frommer and has over 1,000 words with its own grammar structure.",
    "Sam Worthington was working as a bricklayer in Australia when he was cast as Jake Sully." ]

/-- The candidate lists of the `facts` table, in declaration order. -/
def fallbackFactLists : List (List String) :=
  [homeAloneFacts, homeAlone2Facts, lostInNewYorkFacts, titanicFacts, avatarFacts]

/-- JavaScript array indexing `l[i % l.length]` as used by `getFactFromArray`
(both the seeded branch and the `Math.floor(Math.random()*len)` branch index
with a value below the length). -/
def pickMod (l : List String) (i : Nat) : String :=
  l.getD (i % l.length) ""

/-- The set the selection draws from: `availableFacts` is the full array when
`excludeFact` is falsy (the empty string models both `""` and `undefined`),
otherwise the array with the excluded fact filtered out; if filtering left
nothing, the full array is used (`availableFacts.length > 0 ? availableFacts
: factsArray`). -/
def candidatesOf (excludeFact : String) (factsArray : List String) : List String :=
  let availableFacts :=
    if excludeFact = "" then factsArray
    else factsArray.filter (fun fact => fact != excludeFact)
  if 0 < availableFacts.length then availableFacts else factsArray

/-- The raw index the selection uses before the final `% length`: the seed
`requestId % 1000000` when `requestId` is truthy (`if (requestId)` is false
both for `undefined` and for `0`), the random oracle otherwise. -/
def seedIndex (requestId : Option Nat) (rand : Nat) : Nat :=
  match requestId with
  | some r => if r != 0 then r % 1000000 else rand
  | none => rand

/-- Model of the inner `getFactFromArray` closure of `getMovieSpecificFact`:
empty array gives `null`; a one-element array is returned unconditionally;
otherwise the candidate set of `candidatesOf` is indexed by
`seedIndex % length`. -/
def getFactFromArray (requestId : Option Nat) (excludeFact : String) (rand : Nat)
    (factsArray : List String) : Option String :=
  if factsArray.length = 0 then none
  else if factsArray.length = 1 then some (factsArray.getD 0 "")
  else some (pickMod (candidatesOf excludeFact factsArray) (seedIndex requestId rand))

/-- Key dispatch of `getMovieSpecificFact`, factored out of its source
`if`/`for` structure: the sequel check (`"home alone 2"` or
`"lost in new york"`, answering with the `"home alone 2"` list) comes first,
then the base `"home alone"` check, then the `Object.entries` loop which
skips the three specially handled keys and so tests `"titanic"` and
`"avatar"` in declaration order.  The `"lost in new york"` list itself is
unreachable: its key is both handled by the first branch (which returns the
`"home alone 2"` list) and skipped by the loop. -/
def gmsfList (movieLower : String) : Option (List String) :=
  if strIncludes movieLower "home alone 2" || strIncludes movieLower "lost in new york" then
    some homeAlone2Facts
  else if strIncludes movieLower "home alone" && !(strIncludes movieLower "home alone 2") then
    some homeAloneFacts
  else if strIncludes movieLower "titanic" then
    some titanicFacts
  else if strIncludes movieLower "avatar" then
    some avatarFacts
  else
    none

/-- Model of `getMovieSpecificFact(movie, requestId, excludeFact)`: lowercase
the title, dispatch to a candidate list by substring containment, and select
with `getFactFromArray`; `null` when no key matches. -/
def getMovieSpecificFact (movie : String) (requestId : Option Nat)
    (excludeFact : String) (rand : Nat) : Option String :=
  match gmsfList (strToLower movie) with
  | some factsArray => getFactFromArray requestId excludeFact rand factsArray
  | none => none

/-- Model of JavaScript `String.prototype.trim`: drop whitespace from both
ends (written over the character list so that it evaluates in the kernel). -/
def strTrim (s : String) : String :=
  String.mk (((s.data.dropWhile Char.isWhitespace).reverse.dropWhile Char.isWhitespace).reverse)

/-- Identifier of a search result: a numeric TMDB id on the live path, a
synthetic string id (`"fallback-N"` or `"custom-input"`) on the fallback
path. -/
inductive ItemId where
  | tmdb (n : Nat)
  | tag (s : String)
deriving DecidableEq

/-- Normalized search result shape produced by `/api/search-movies`. -/
structure SearchItem where
  id : ItemId
  title : String
  year : Option Int
  poster : Option String
  overview : Option String
deriving DecidableEq

/-- An entry of the hard-coded `popularMovies` fallback catalog. -/
structure CatalogMovie where
  title : String
  year : Int
  overview : String
deriving DecidableEq

/-- The fixed `popularMovies` catalog of `getFallbackMovies` (first variant of
the search route, whose custom-entry overview has no quotation marks). -/
def popularMovies : List CatalogMovie :=
  [ { title := "Home Alone", year := 1990,
      overview := "8-year-old Kevin is accidentally left behind when his family goes on vacation." },
    { title := "Home Alone 2: Lost in New York", year := 1992,
      overview := "Kevin ends up in New York City alone and must defend a hotel from burglars." },
    { title := "The Shawshank Redemption", year := 1994,
      overview := "Two imprisoned men bond over years, finding solace and redemption." },
    { title := "The Godfather", year := 1972,
      overview := "The aging patriarch of an organized crime dynasty transfers control to his reluctant son." },
    { title := "Titanic", year := 1997,
      overview := "A seventeen-year-old aristocrat falls in love with a kind but poor artist aboard the luxurious, ill-fated R.M.S. Titanic." },
    { title := "Avatar", year := 2009,
      overview := "A paraplegic Marine dispatched to the moon Pandora on a unique mission." },
    { title := "The Dark Knight", year := 2008,
      overview := "Batman faces the Joker, a criminal mastermind who wants to plunge Gotham City into anarchy." },
    { title := "Forrest Gump", year := 1994,
      overview := "The presidencies of Kennedy and Johnson through the eyes of an Alabama man with an IQ of 75." },
    { title := "Inception", year := 2010,
      overview := "A thief who steals corporate secrets through dream-sharing technology." },
    { title := "The Matrix", year := 1999,
      overview := "A computer hacker learns from mysterious rebels about the true nature of his reality." },
    { title := "Pulp Fiction", year := 1994,
      overview := "The lives of two mob hitmen, a boxer, and others intertwine in four tales of violence and redemption." },
    { title := "The Lion King", year := 1994,
      overview := "A young lion prince flees his kingdom after his father\x27s death." } ]

/-- Catalog entries whose lowercase title contains the lowercase query
(the `matches` filter of `getFallbackMovies`). -/
def catalogMatches (query : String) : List CatalogMovie :=
  popularMovies.filter (fun m => strIncludes (strToLower m.title) (strToLower query))

/-- The `matches.map((movie, index) => ...)` step of `getFallbackMovies`:
synthetic sequential ids `"fallback-N"`, the catalog year, no poster. -/
def tagWithIds (start : Nat) : List CatalogMovie → List SearchItem
  | [] => []
  | m :: ms =>
    { id := ItemId.tag ("fallback-" ++ toString start), title := m.title,
      year := some m.year, poster := none, overview := some m.overview } :: tagWithIds (start + 1) ms

/-- The single synthetic manual-entry result returned when no catalog title
matches: id `"custom-input"`, the trimmed raw query as title. -/
def customItem (query : String) : SearchItem :=
  { id := ItemId.tag "custom-input", title := strTrim query,
    year := none, poster := none,
    overview := some ("Add " ++ strTrim query ++ " as your favorite movie") }

/-- Model of `getFallbackMovies(query)`. -/
def getFallbackMovies (query : String) : List SearchItem :=
  if (catalogMatches query).length > 0 then tagWithIds 0 (catalogMatches query)
  else [customItem query]

/-- A raw movie object of the TMDB payload, as destructured by the route. -/
structure TmdbMovie where
  id : Nat
  title : String
  release_date : Option String
  poster_path : Option String
  overview : Option String
deriving DecidableEq

/-- Outcome of the outbound TMDB fetch, made explicit as an oracle: the fetch
threw, the HTTP response was not ok, the payload carried `status_code` or no
`results`, or it carried a result list. -/
inductive TmdbOutcome where
  | fetchError
  | badStatus
  | badPayload
  | ok (movies : List TmdbMovie)
deriving DecidableEq

/-- The per-movie normalization of the live path: numeric id, title, year
extracted from a truthy release date (`getYear` stands for
`new Date(d).getFullYear()`), poster URL built from a truthy poster path,
overview passed through. -/
def formatTmdbMovie (getYear : String → Int) (m : TmdbMovie) : SearchItem :=
  { id := ItemId.tmdb m.id,
    title := m.title,
    year := match m.release_date with
      | some d => if d = "" then none else some (getYear d)
      | none => none,
    poster := match m.poster_path with
      | some p => if p = "" then none else some ("https://image.tmdb.org/t/p/w200" ++ p)
      | none => none,
    overview := m.overview }

/-- Response of the search route; `fallback := false` models the JSON
responses that carry no `fallback` flag. -/
structure SearchResponse where
  results : List SearchItem
  fallback : Bool
deriving DecidableEq

/-- Model of the GET handler of `/api/search-movies`.  The second component
records whether the outbound TMDB call was issued.  `q = none` models a
missing `q` parameter; `hasKey` models `process.env.TMDB_API_KEY` being
configured. -/
def searchMovies (hasKey : Bool) (getYear : String → Int) (outcome : TmdbOutcome)
    (q : Option String) : SearchResponse × Bool :=
  match q with
  | none => ({ results := [], fallback := false }, false)
  | some s =>
    if s.length < 2 then ({ results := [], fallback := false }, false)
    else if !hasKey then ({ results := getFallbackMovies s, fallback := true }, false)
    else
      match outcome with
      | .fetchError => ({ results := getFallbackMovies s, fallback := true }, true)
      | .badStatus => ({ results := getFallbackMovies s, fallback := true }, true)
      | .badPayload => ({ results := getFallbackMovies s, fallback := true }, true)
      | .ok movies =>
        let formattedResults := (movies.take 8).map (formatTmdbMovie getYear)
        if formattedResults.length = 0 then
          ({ results := getFallbackMovies s, fallback := true }, true)
        else
          ({ results := formattedResults, fallback := false }, true)

/-- Truthiness of the query guard `!query || query.length < 2`: a missing
parameter or a query shorter than 2 characters. -/
def shortQuery : Option String → Bool
  | none => true
  | some s => decide (s.length < 2)

/-- Body of a `/api/generate-fact` POST request after JSON parsing:
`movie = none` models a missing or non-string `movie` field. -/
structure FactRequest where
  movie : Option String
  requestId : Option Nat
  excludeFact : Option String

/-- Outcome of the OpenAI chat-completion call: the call threw (this is also
how the SDK surfaces a non-2xx response), or it returned, with
`choices[0]?.message?.content` being absent (`none`) or a string. -/
inductive LlmOutcome where
  | thrown
  | ok (content : Option String)
deriving DecidableEq

/-- Boolean test that the LLM call failed in one of the degraded senses: it
threw, or its message content was absent or blank after trimming. -/
def llmFailed : LlmOutcome → Bool
  | .thrown => true
  | .ok none => true
  | .ok (some s) => strTrim s == ""

/-- Response shape of the generate-fact POST handler: HTTP status plus the
`fact` or `error` JSON field. -/
structure ApiResponse where
  status : Nat
  fact : Option String
  error : Option String
deriving DecidableEq

/-- The catch-all sentence of the handler (`I\x27m having trouble generating
facts right now, ...`), returned both when the JSON body fails to parse and
when the OpenAI call throws. -/
def catchSentence : String :=
  "I\x27m having trouble generating facts right now, but that\x27s definitely a great movie! Try refreshing the page."

/-- The sentence returned when no fallback entry matches and no OpenAI key is
configured. -/
def noKeySentence (movie : String) : String :=
  "I don\x27t have specific facts about \"" ++ movie ++ "\" available right now, but it\x27s a great movie! Try refreshing the page."

/-- The sentence returned when the OpenAI call succeeds but its trimmed
content is empty. -/
def emptyLlmSentence (movie : String) : String :=
  "Sorry, I couldn\x27t generate a specific fact about \"" ++ movie ++ "\" right now. Try refreshing the page for a new attempt!"

/-- Model of the POST handler of `/api/generate-fact`
(`src/app/api/generate-fact/route.ts`).  `body = none` models a request body
that is not parseable JSON: `request.json()` throws inside the catch-all
`try`, so the handler answers 200 with the catch sentence before the movie
validation is reached.  `hasKey` models `process.env.OPENAI_API_KEY`. -/
def generateFactPost (hasKey : Bool) (llm : LlmOutcome) (rand : Nat)
    (body : Option FactRequest) : ApiResponse :=
  match body with
  | none => { status := 200, fact := some catchSentence, error := none }
  | some r =>
    match r.movie with
    | none => { status := 400, fact := none, error := some "Movie name is required" }
    | some m =>
      if m = "" then { status := 400, fact := none, error := some "Movie name is required" }
      else
        match getMovieSpecificFact m r.requestId (r.excludeFact.getD "") rand with
        | some f => { status := 200, fact := some f, error := none }
        | none =>
          if !hasKey then { status := 200, fact := some (noKeySentence m), error := none }
          else
            match llm with
            | .thrown => { status := 200, fact := some catchSentence, error := none }
            | .ok content =>
              let fact := strTrim (content.getD "")
              if fact = "" then { status := 200, fact := some (emptyLlmSentence m), error := none }
              else { status := 200, fact := some fact, error := none }

/-- A row of the `User` table, reduced to the column the embedded routes
read and write (`name`, `email`, `image` and the timestamps are elided). -/
structure UserRec where
  favoriteMovie : Option String
deriving DecidableEq

/-- The user-preference store: user id to optional row. -/
abbrev Store := String → Option UserRec

/-- Model of `updateUserFavoriteMovie` over Prisma: `prisma.user.update`
updates the row when it exists and throws (here `none`) when it does not. -/
def updateUserFavoriteMovie (store : Store) (userId : String) (title : String) :
    Option Store :=
  match store userId with
  | some _ => some (fun u => if u = userId then some { favoriteMovie := some title } else store u)
  | none => none

/-- Result of a favorite-movie write endpoint: HTTP status, `error` field,
and the store after the request. -/
structure EndpointResult where
  status : Nat
  error : Option String
  store : Store

/-- Model of the POST handler of `/api/user/favorite-movie`: the body field
`favoriteMovie` is only checked for truthiness (`if (!favoriteMovie)`), so
only a missing or empty string is rejected with 400; an accepted title is
written exactly as sent, without trimming. -/
def favoriteMoviePost (session : Option String) (store : Store)
    (favoriteMovie : Option String) : EndpointResult :=
  match session with
  | none => { status := 401, error := some "Unauthorized", store := store }
  | some uid =>
    match favoriteMovie with
    | none => { status := 400, error := some "Favorite movie is required", store := store }
    | some t =>
      if t = "" then { status := 400, error := some "Favorite movie is required", store := store }
      else
        match updateUserFavoriteMovie store uid t with
        | some store2 => { status := 200, error := none, store := store2 }
        | none => { status := 500, error := some "Internal server error", store := store }

/-- Model of the second set-favorite-movie POST variant (body field `movie`):
the guard `!movie || typeof movie !== "string" || !movie.trim()` rejects a
missing, non-string, empty or whitespace-only title with 400, and the
accepted title is written trimmed. -/
def setMoviePost (session : Option String) (store : Store)
    (movie : Option String) : EndpointResult :=
  match session with
  | none => { status := 401, error := some "Authentication required", store := store }
  | some uid =>
    match movie with
    | none => { status := 400, error := some "Movie title is required", store := store }
    | some m =>
      if strTrim m = "" then { status := 400, error := some "Movie title is required", store := store }
      else
        match updateUserFavoriteMovie store uid (strTrim m) with
        | some store2 => { status := 200, error := none, store := store2 }
        | none => { status := 500, error := some "Failed to save favorite movie", store := store }

/-- A store with a single user `"u1"` whose favorite is `"Titanic"`, used by
the concrete scenarios below. -/
def demoStore : Store :=
  fun u => if u = "u1" then some { favoriteMovie := some "Titanic" } else none

/-- Boolean check that a selected fact lies in the sequel list and not in the
base `"home alone"` list (vacuously true when no fact was selected). -/
def inSequelListOnly (o : Option String) : Bool :=
  o.all (fun f => homeAlone2Facts.contains f && !(homeAloneFacts.contains f))

/-- Boolean check that every search result has no poster and carries the
title of a catalog entry whose lowercase title contains the lowercase
query. -/
def drawnFromCatalog (query : String) (rs : List SearchItem) : Bool :=
  rs.all (fun r => r.poster == none &&
    popularMovies.any (fun m => m.title == r.title &&
      strIncludes (strToLower m.title) (strToLower query)))

lemma getD_mem (l : List String) (i : Nat) (hi : i < l.length) : l.getD i "" ∈ l := by
  rw [List.getD_eq_getElem?_getD, List.getElem?_eq_getElem hi, Option.getD_some]
  exact List.getElem_mem hi

lemma pickMod_mem (l : List String) (i : Nat) (h : l ≠ []) : pickMod l i ∈ l := by
  have hpos : 0 < l.length := List.length_pos.mpr h
  exact getD_mem l _ (Nat.mod_lt _ hpos)

lemma candidatesOf_ne_nil (ex : String) (arr : List String) (h : arr ≠ []) :
    candidatesOf ex arr ≠ [] := by
  by_cases hex : ex = "" <;> simp only [candidatesOf, hex, if_pos, if_neg, ite_true, ite_false]
  · split
    · next hpos => exact List.length_pos.mp hpos
    · exact h
  · split
    · next hpos => exact List.length_pos.mp hpos
    · exact h

lemma mem_of_mem_candidatesOf {ex : String} {arr : List String} {x : String}
    (hx : x ∈ candidatesOf ex arr) : x ∈ arr := by
  by_cases hex : ex = "" <;>
    simp only [candidatesOf, hex, ite_true, ite_false] at hx
  · split at hx <;> exact hx
  · split at hx
    · exact (List.mem_filter.mp hx).1
    · exact hx

lemma ne_of_mem_candidatesOf {ex : String} {arr : List String} {x : String}
    (hex : ex ≠ "") (hfil : arr.filter (fun f => f != ex) ≠ [])
    (hx : x ∈ candidatesOf ex arr) : x ≠ ex := by
  simp only [candidatesOf, if_neg hex] at hx
  rw [if_pos (List.length_pos.mpr hfil)] at hx
  have hne := (List.mem_filter.mp hx).2
  simpa using hne

lemma candidatesOf_of_filter_nil {ex : String} {arr : List String}
    (hfil : arr.filter (fun f => f != ex) = []) (harr : arr ≠ []) :
    candidatesOf ex arr = arr := by
  simp only [candidatesOf]
  by_cases hex : ex = ""
  · rw [if_pos hex, if_pos (List.length_pos.mpr harr)]
  · rw [if_neg hex, hfil]
    simp

lemma gffa_mem {reqId : Option Nat} {ex : String} {rand : Nat} {arr : List String} {f : String}
    (h : getFactFromArray reqId ex rand arr = some f) : f ∈ arr := by
  unfold getFactFromArray at h
  by_cases h0 : arr.length = 0
  · rw [if_pos h0] at h
    exact absurd h (by simp)
  have harr : arr ≠ [] := fun hnil => h0 (by simp [hnil])
  rw [if_neg h0] at h
  by_cases h1 : arr.length = 1
  · rw [if_pos h1] at h
    obtain rfl : arr.getD 0 "" = f := Option.some.inj h
    exact getD_mem arr 0 (by omega)
  rw [if_neg h1] at h
  have hc : candidatesOf ex arr ≠ [] := candidatesOf_ne_nil ex arr harr
  obtain rfl : pickMod (candidatesOf ex arr) (seedIndex reqId rand) = f := Option.some.inj h
  exact mem_of_mem_candidatesOf (pickMod_mem _ _ hc)

lemma gffa_ne_excluded (arr : List String) (ex : String) (reqId : Option Nat) (rand : Nat)
    (hlen : 1 < arr.length) (hex : ex ≠ "")
    (hfil : arr.filter (fun f => f != ex) ≠ []) :
    getFactFromArray reqId ex rand arr ≠ some ex := by
  have harr : arr ≠ [] := fun hnil => by simp [hnil] at hlen
  have hc : candidatesOf ex arr ≠ [] := candidatesOf_ne_nil ex arr harr
  have key : ∀ i, pickMod (candidatesOf ex arr) i ≠ ex := fun i =>
    ne_of_mem_candidatesOf hex hfil (pickMod_mem _ i hc)
  unfold getFactFromArray
  rw [if_neg (by omega), if_neg (by omega)]
  exact fun hcontra => key _ (Option.some.inj hcontra)

lemma gffa_some_zero (ex : String) (rand : Nat) (arr : List String) :
    getFactFromArray (some 0) ex rand arr = getFactFromArray none ex rand arr := rfl

lemma seedIndex_of_ne_zero {r : Nat} (hr : r ≠ 0) (rand : Nat) :
    seedIndex (some r) rand = r % 1000000 := by
  simp [seedIndex, hr]

lemma gffa_det (r : Nat) (hr : r ≠ 0) (ex : String) (rand1 rand2 : Nat) (arr : List String) :
    getFactFromArray (some r) ex rand1 arr = getFactFromArray (some r) ex rand2 arr := by
  unfold getFactFromArray
  rw [seedIndex_of_ne_zero hr, seedIndex_of_ne_zero hr]

lemma gmsf_det (movie : String) (r : Nat) (hr : r ≠ 0) (ex : String) (rand1 rand2 : Nat) :
    getMovieSpecificFact movie (some r) ex rand1 = getMovieSpecificFact movie (some r) ex rand2 := by
  unfold getMovieSpecificFact
  cases gmsfList (strToLower movie) with
  | none => rfl
  | some arr => exact gffa_det r hr ex rand1 rand2 arr

/-- C2: over every candidate list of the `facts` table with more than one
entry, and every excluded fact that is one of its entries, the selection
never returns the excluded fact, for every request id (supplied or not) and
every random draw; and, in general, whenever filtering the excluded fact out
of a multi-entry list would leave nothing, the selection still returns a
fact, drawn from the full list. -/
theorem excluded_fact_never_returned :
    (∀ arr ∈ fallbackFactLists, 1 < arr.length →
      ∀ ex ∈ arr, ∀ (reqId : Option Nat) (rand : Nat),
        getFactFromArray reqId ex rand arr ≠ some ex) ∧
    (∀ (arr : List String) (ex : String) (reqId : Option Nat) (rand : Nat),
      1 < arr.length → arr.filter (fun f => f != ex) = [] →
        getFactFromArray reqId ex rand arr ≠ none ∧
        (getFactFromArray reqId ex rand arr).all (List.contains arr) = true) := by
  constructor
  · intro arr harr hlen ex hex reqId rand
    have hblank : ∀ l ∈ fallbackFactLists, ∀ x ∈ l, x ≠ "" := by decide
    have hkeep : ∀ l ∈ fallbackFactLists, ∀ x ∈ l, l.filter (fun f => f != x) ≠ [] := by decide
    exact gffa_ne_excluded arr ex reqId rand hlen (hblank arr harr ex hex) (hkeep arr harr ex hex)
  · intro arr ex reqId rand hlen hfil
    have harr : arr ≠ [] := fun hnil => by simp [hnil] at hlen
    have hcand : candidatesOf ex arr = arr := candidatesOf_of_filter_nil hfil harr
    unfold getFactFromArray
    rw [if_neg (by omega), if_neg (by omega), hcand]
    refine ⟨by simp, ?_⟩
    have hm : pickMod arr (seedIndex reqId rand) ∈ arr := pickMod_mem arr _ harr
    simpa [Option.all] using List.elem_eq_true_of_mem hm

/-- C2 witness: the first `"home alone 2"` fact, excluded, is never the one
returned; and on a two-entry list both of whose entries equal the excluded
fact, a fact from the full list is still returned. -/
theorem excluded_fact_never_returned_witness :
    (getFactFromArray (some 5) (homeAlone2Facts.getD 0 "") 0 homeAlone2Facts ≠
        some (homeAlone2Facts.getD 0 "")) ∧
    (getFactFromArray (some 1) "a" 2 ["a", "a"] ≠ none ∧
      (getFactFromArray (some 1) "a" 2 ["a", "a"]).all (List.contains ["a", "a"]) = true) :=
  ⟨excluded_fact_never_returned.1 homeAlone2Facts (by decide) (by decide)
      (homeAlone2Facts.getD 0 "") (by decide) (some 5) 0,
    excluded_fact_never_returned.2 ["a", "a"] "a" (some 1) 2 (by decide) (by decide)⟩

/-- C3 counterexample: with requestId 0 supplied (same title, same request
id, same excluded fact), the returned fact depends on the random draw, so two
calls do not always return the same fact: the claim fails at title
`"titanic"`, requestId 0, excludeFact `""`. -/
theorem selection_determinism_counterexample :
    getMovieSpecificFact "titanic" (some 0) "" 0 ≠
      getMovieSpecificFact "titanic" (some 0) "" 1 := by decide

/-- C3 amended: for every movie title, every NONZERO request id, and every
excluded fact, the selected fact is independent of the random draw, so two
calls with the same title, request id and excluded fact return the same fact;
with a zero or absent request id the selection is random and may differ. -/
theorem selection_deterministic_for_nonzero_requestId (movie : String) (r : Nat)
    (ex : String) (rand1 rand2 : Nat) (hr : r ≠ 0) :
    getMovieSpecificFact movie (some r) ex rand1 =
      getMovieSpecificFact movie (some r) ex rand2 :=
  gmsf_det movie r hr ex rand1 rand2

/-- C3 witness: requestId 7 yields the same fact for two different random
draws. -/
theorem selection_deterministic_for_nonzero_requestId_witness :
    (7 : Nat) ≠ 0 ∧
    getMovieSpecificFact "titanic" (some 7) "" 0 =
      getMovieSpecificFact "titanic" (some 7) "" 99 :=
  ⟨by decide,
    selection_deterministic_for_nonzero_requestId "titanic" 7 "" 0 99 (by decide)⟩

/-- C4: title `"Home Alone 2: Lost in New York"`, requestId 7, excludeFact
`""` selects from the 3-entry `"home alone 2"` list at index `7 % 3 = 1`,
the second listed fact, whatever the random draw. -/
theorem home_alone_2_request_7_scenario (rand : Nat) :
    getMovieSpecificFact "Home Alone 2: Lost in New York" (some 7) "" rand =
      some (homeAlone2Facts.getD 1 "") ∧ homeAlone2Facts.length = 3 := by
  constructor
  · calc getMovieSpecificFact "Home Alone 2: Lost in New York" (some 7) "" rand
        = getMovieSpecificFact "Home Alone 2: Lost in New York" (some 7) "" 0 :=
          gmsf_det _ 7 (by decide) "" rand 0
      _ = some (homeAlone2Facts.getD 1 "") := by decide
  · rfl

/-- C5: every title whose lowercase form contains `"home alone 2"` or
`"lost in new york"` resolves to the `"home alone 2"` candidate list, and the
selected fact (if any) belongs to that list and never to the base
`"home alone"` list. -/
theorem sequel_title_resolves_to_sequel_list (movie : String) (reqId : Option Nat)
    (ex : String) (rand : Nat)
    (h : strIncludes (strToLower movie) "home alone 2" = true ∨
      strIncludes (strToLower movie) "lost in new york" = true) :
    getMovieSpecificFact movie reqId ex rand =
      getFactFromArray reqId ex rand homeAlone2Facts ∧
    inSequelListOnly (getMovieSpecificFact movie reqId ex rand) = true := by
  have hlist : gmsfList (strToLower movie) = some homeAlone2Facts := by
    unfold gmsfList
    rcases h with h | h <;> simp [h]
  have heq : getMovieSpecificFact movie reqId ex rand =
      getFactFromArray reqId ex rand homeAlone2Facts := by
    unfold getMovieSpecificFact
    rw [hlist]
  refine ⟨heq, ?_⟩
  rw [heq]
  cases hres : getFactFromArray reqId ex rand homeAlone2Facts with
  | none => rfl
  | some f =>
    have hf : f ∈ homeAlone2Facts := gffa_mem hres
    have hall : ∀ x ∈ homeAlone2Facts,
        (homeAlone2Facts.contains x && !(homeAloneFacts.contains x)) = true := by decide
    simpa [inSequelListOnly, Option.all] using hall f hf

/-- C5 witness: the full sequel title contains both sequel substrings and the
base substring, and still resolves to the sequel list. -/
theorem sequel_title_resolves_to_sequel_list_witness :
    (strIncludes (strToLower "Home Alone 2: Lost in New York") "home alone 2" = true ∨
      strIncludes (strToLower "Home Alone 2: Lost in New York") "lost in new york" = true) ∧
    (getMovieSpecificFact "Home Alone 2: Lost in New York" none "" 2 =
        getFactFromArray none "" 2 homeAlone2Facts ∧
      inSequelListOnly (getMovieSpecificFact "Home Alone 2: Lost in New York" none "" 2) = true) :=
  ⟨Or.inl (by decide),
    sequel_title_resolves_to_sequel_list "Home Alone 2: Lost in New York" none "" 2
      (Or.inl (by decide))⟩

/-- C9: a supplied requestId of 0 is falsy in the `if (requestId)` test, so
the selection behaves exactly as if no request id had been supplied, falling
through to the random branch, both for the raw selection and for the whole
per-movie lookup. -/
theorem requestId_zero_behaves_as_absent :
    (∀ (ex : String) (rand : Nat) (arr : List String),
      getFactFromArray (some 0) ex rand arr = getFactFromArray none ex rand arr) ∧
    (∀ (movie ex : String) (rand : Nat),
      getMovieSpecificFact movie (some 0) ex rand =
        getMovieSpecificFact movie none ex rand) := by
  refine ⟨fun ex rand arr => gffa_some_zero ex rand arr, fun movie ex rand => ?_⟩
  unfold getMovieSpecificFact
  cases gmsfList (strToLower movie) with
  | none => rfl
  | some arr => exact gffa_some_zero ex rand arr

lemma drawnFromCatalog_tagWithIds (q : String) (k : Nat) (l : List CatalogMovie)
    (hl : ∀ m ∈ l, m ∈ popularMovies ∧
      strIncludes (strToLower m.title) (strToLower q) = true) :
    drawnFromCatalog q (tagWithIds k l) = true := by
  induction l generalizing k with
  | nil => rfl
  | cons m ms ih =>
    have hm := hl m (List.mem_cons_self m ms)
    simp only [tagWithIds, drawnFromCatalog, List.all_cons, Bool.and_eq_true]
    refine ⟨⟨rfl, ?_⟩, ?_⟩
    · rw [List.any_eq_true]
      exact ⟨m, hm.1, by simp [hm.2]⟩
    · simpa [drawnFromCatalog] using
        ih (k + 1) (fun x hx => hl x (List.mem_cons_of_mem m hx))

/-- C6: with no TMDB credential configured, every query of length at least 2
gets `fallback: true` without any external call, with the results of
`getFallbackMovies`: when some catalog title contains the query
(case-insensitively), the results are exactly the tagged matches — synthetic
sequential ids, no poster, catalog titles containing the query — and when no
catalog title matches, exactly one synthetic entry whose title is the trimmed
raw query. -/
theorem search_without_key_uses_catalog (getYear : String → Int)
    (outcome : TmdbOutcome) (s : String) (h : 2 ≤ s.length) :
    (searchMovies false getYear outcome (some s)).1.fallback = true ∧
    (searchMovies false getYear outcome (some s)).2 = false ∧
    (searchMovies false getYear outcome (some s)).1.results = getFallbackMovies s ∧
    (if catalogMatches s = [] then
        (searchMovies false getYear outcome (some s)).1.results = [customItem s] ∧
          (customItem s).title = strTrim s
      else
        (searchMovies false getYear outcome (some s)).1.results =
            tagWithIds 0 (catalogMatches s) ∧
          drawnFromCatalog s (searchMovies false getYear outcome (some s)).1.results = true) := by
  have hs : ¬ (s.length < 2) := by omega
  have hres : searchMovies false getYear outcome (some s) =
      ({ results := getFallbackMovies s, fallback := true }, false) := by
    simp [searchMovies, hs]
  rw [hres]
  refine ⟨rfl, rfl, rfl, ?_⟩
  by_cases hmatch : catalogMatches s = []
  · rw [if_pos hmatch]
    exact ⟨by simp [getFallbackMovies, hmatch], rfl⟩
  · rw [if_neg hmatch]
    have hpos : 0 < (catalogMatches s).length := List.length_pos.mpr hmatch
    have hfb : getFallbackMovies s = tagWithIds 0 (catalogMatches s) := by
      simp [getFallbackMovies, hpos]
    refine ⟨hfb, ?_⟩
    rw [hfb]
    refine drawnFromCatalog_tagWithIds s 0 (catalogMatches s) (fun m hm => ?_)
    have := List.mem_filter.mp hm
    exact ⟨this.1, this.2⟩

/-- C6 witness: the query `"home"` matches catalog titles; the query
`"  zzqq "` matches none and yields the single trimmed synthetic entry. -/
theorem search_without_key_uses_catalog_witness :
    (2 ≤ ("home" : String).length ∧
      (searchMovies false (fun _ => 0) TmdbOutcome.fetchError (some "home")).1.fallback = true ∧
      (searchMovies false (fun _ => 0) TmdbOutcome.fetchError (some "home")).2 = false ∧
      (searchMovies false (fun _ => 0) TmdbOutcome.fetchError (some "home")).1.results =
        getFallbackMovies "home" ∧
      (if catalogMatches "home" = [] then
          (searchMovies false (fun _ => 0) TmdbOutcome.fetchError (some "home")).1.results =
              [customItem "home"] ∧ (customItem "home").title = strTrim "home"
        else
          (searchMovies false (fun _ => 0) TmdbOutcome.fetchError (some "home")).1.results =
              tagWithIds 0 (catalogMatches "home") ∧
            drawnFromCatalog "home"
              (searchMovies false (fun _ => 0) TmdbOutcome.fetchError (some "home")).1.results =
              true)) ∧
    (2 ≤ ("  zzqq " : String).length ∧
      (searchMovies false (fun _ => 0) TmdbOutcome.fetchError (some "  zzqq ")).1.fallback = true ∧
      (searchMovies false (fun _ => 0) TmdbOutcome.fetchError (some "  zzqq ")).2 = false ∧
      (searchMovies false (fun _ => 0) TmdbOutcome.fetchError (some "  zzqq ")).1.results =
        getFallbackMovies "  zzqq " ∧
      (if catalogMatches "  zzqq " = [] then
          (searchMovies false (fun _ => 0) TmdbOutcome.fetchError (some "  zzqq ")).1.results =
              [customItem "  zzqq "] ∧ (customItem "  zzqq ").title = strTrim "  zzqq "
        else
          (searchMovies false (fun _ => 0) TmdbOutcome.fetchError (some "  zzqq ")).1.results =
              tagWithIds 0 (catalogMatches "  zzqq ") ∧
            drawnFromCatalog "  zzqq "
              (searchMovies false (fun _ => 0) TmdbOutcome.fetchError (some "  zzqq ")).1.results =
              true)) :=
  ⟨⟨by decide, search_without_key_uses_catalog (fun _ => 0) TmdbOutcome.fetchError "home" (by decide)⟩,
    ⟨by decide, search_without_key_uses_catalog (fun _ => 0) TmdbOutcome.fetchError "  zzqq " (by decide)⟩⟩

/-- C7: whenever the `q` parameter is missing or shorter than 2 characters,
the search route answers an empty result list (no `fallback` flag) and issues
no external call, whatever the credential configuration and whatever the
external service would have answered. -/
theorem short_query_empty_and_no_call (hasKey : Bool) (getYear : String → Int)
    (outcome : TmdbOutcome) (q : Option String) (h : shortQuery q = true) :
    searchMovies hasKey getYear outcome q = ({ results := [], fallback := false }, false) := by
  cases q with
  | none => rfl
  | some s =>
    have hs : s.length < 2 := by simpa [shortQuery] using h
    simp [searchMovies, hs]

/-- C7 witness: the one-character query `"a"` with a configured key. -/
theorem short_query_empty_and_no_call_witness :
    shortQuery (some "a") = true ∧
    searchMovies true (fun _ => 0) (TmdbOutcome.ok []) (some "a") =
      ({ results := [], fallback := false }, false) :=
  ⟨by decide, short_query_empty_and_no_call true (fun _ => 0) (TmdbOutcome.ok []) (some "a") (by decide)⟩

/-- C8: for every request whose `movie` field is a non-empty string, a
failing LLM call — thrown (which is also how the SDK surfaces a non-success
response) or returning an absent or blank message — is never surfaced as an
error: the handler answers 200 with no `error` field and some fact
sentence. -/
theorem llm_failure_never_surfaced (hasKey : Bool) (llm : LlmOutcome) (rand : Nat)
    (reqId : Option Nat) (exF : Option String) (m : String)
    (hm : m ≠ "") (hfail : llmFailed llm = true) :
    (generateFactPost hasKey llm rand (some ⟨some m, reqId, exF⟩)).status = 200 ∧
    (generateFactPost hasKey llm rand (some ⟨some m, reqId, exF⟩)).error = none ∧
    (generateFactPost hasKey llm rand (some ⟨some m, reqId, exF⟩)).fact ≠ none := by
  simp only [generateFactPost]
  rw [if_neg hm]
  cases hg : getMovieSpecificFact m reqId (exF.getD "") rand with
  | some f => exact ⟨rfl, rfl, by simp⟩
  | none =>
    cases hasKey with
    | false => exact ⟨rfl, rfl, by simp⟩
    | true =>
      cases llm with
      | thrown => exact ⟨rfl, rfl, by simp⟩
      | ok content =>
        cases content with
        | none => exact ⟨rfl, rfl, by simp [show strTrim "" = "" from by decide]⟩
        | some s =>
          have hs : strTrim s = "" := by simpa [llmFailed] using hfail
          simp only [Option.getD_some, hs]
          exact ⟨rfl, rfl, by simp⟩

/-- C8 witness: a thrown LLM call for the unmatched title `"zz movie"` with a
configured key still yields a 200 response carrying a fact. -/
theorem llm_failure_never_surfaced_witness :
    ("zz movie" ≠ "") ∧ llmFailed LlmOutcome.thrown = true ∧
    (generateFactPost true LlmOutcome.thrown 0 (some ⟨some "zz movie", none, none⟩)).status = 200 ∧
    (generateFactPost true LlmOutcome.thrown 0 (some ⟨some "zz movie", none, none⟩)).error = none ∧
    (generateFactPost true LlmOutcome.thrown 0 (some ⟨some "zz movie", none, none⟩)).fact ≠ none :=
  ⟨by decide, by decide,
    (llm_failure_never_surfaced true LlmOutcome.thrown 0 none none "zz movie"
      (by decide) (by decide)).1,
    (llm_failure_never_surfaced true LlmOutcome.thrown 0 none none "zz movie"
      (by decide) (by decide)).2.1,
    (llm_failure_never_surfaced true LlmOutcome.thrown 0 none none "zz movie"
      (by decide) (by decide)).2.2⟩

/-- C10: a request body that is not parseable JSON makes `request.json()`
throw inside the catch-all `try`, so the handler answers 200 with the generic
trouble sentence and never reaches the 400 `"Movie name is required"`
validation, whatever the credential configuration and LLM outcome. -/
theorem malformed_body_answers_200_trouble (hasKey : Bool) (llm : LlmOutcome) (rand : Nat) :
    generateFactPost hasKey llm rand none =
      { status := 200, fact := some catchSentence, error := none } ∧
    (generateFactPost hasKey llm rand none).status ≠ 400 ∧
    catchSentence =
      "I\x27m having trouble generating facts right now, but that\x27s definitely a great movie! Try refreshing the page." :=
  ⟨rfl, by simp [generateFactPost], rfl⟩

/-- C1 counterexample: through the `/api/user/favorite-movie` variant, the
whitespace-only title `" "` is truthy, passes the `if (!favoriteMovie)`
check, and is written to the store unchanged with status 200 — not rejected
with 400, and the stored preference does not stay `"Titanic"`. -/
theorem whitespace_favorite_accepted_counterexample :
    (favoriteMoviePost (some "u1") demoStore (some " ")).status = 200 ∧
    (favoriteMoviePost (some "u1") demoStore (some " ")).status ≠ 400 ∧
    (favoriteMoviePost (some "u1") demoStore (some " ")).store "u1" =
      some { favoriteMovie := some " " } ∧
    demoStore "u1" = some { favoriteMovie := some "Titanic" } := by
  refine ⟨rfl, by decide, ?_, rfl⟩
  simp [favoriteMoviePost, updateUserFavoriteMovie, demoStore]

/-- C1 amended: the `{movie}` body variant validates the title as a non-empty
trimmed string, rejecting an empty or whitespace-only title with 400 before
any write; the `{favoriteMovie}` body variant rejects only an empty title
with 400 (store unchanged), while a whitespace-only title passes its
truthiness check and is written unchanged with status 200. -/
theorem set_favorite_validation_amended (sid : String) (store : Store) (u : UserRec)
    (t : String) (hu : store sid = some u) (ht : t ≠ "") (htrim : strTrim t = "") :
    (setMoviePost (some sid) store (some t)).status = 400 ∧
    (setMoviePost (some sid) store (some t)).store sid = some u ∧
    (setMoviePost (some sid) store (some "")).status = 400 ∧
    (setMoviePost (some sid) store (some "")).store sid = some u ∧
    (setMoviePost (some sid) store none).status = 400 ∧
    (setMoviePost (some sid) store none).store sid = some u ∧
    (favoriteMoviePost (some sid) store (some t)).status = 200 ∧
    (favoriteMoviePost (some sid) store (some t)).store sid =
      some { favoriteMovie := some t } ∧
    (favoriteMoviePost (some sid) store (some "")).status = 400 ∧
    (favoriteMoviePost (some sid) store (some "")).store sid = some u ∧
    (favoriteMoviePost (some sid) store none).status = 400 ∧
    (favoriteMoviePost (some sid) store none).store sid = some u := by
  refine ⟨?_, ?_, ?_, ?_, rfl, hu, ?_, ?_, rfl, hu, rfl, hu⟩
  · simp [setMoviePost, htrim]
  · simp [setMoviePost, htrim, hu]
  · simp [setMoviePost, show strTrim "" = "" from by decide]
  · simp [setMoviePost, show strTrim "" = "" from by decide, hu]
  · simp [favoriteMoviePost, ht, updateUserFavoriteMovie, hu]
  · simp [favoriteMoviePost, ht, updateUserFavoriteMovie, hu]

/-- C1 witness: user `"u1"` with stored favorite `"Titanic"` and the
whitespace-only title `" "`. -/
theorem set_favorite_validation_amended_witness :
    (demoStore "u1" = some { favoriteMovie := some "Titanic" } ∧ (" " ≠ "") ∧ strTrim " " = "") ∧
    ((setMoviePost (some "u1") demoStore (some " ")).status = 400 ∧
      (setMoviePost (some "u1") demoStore (some " ")).store "u1" =
        some { favoriteMovie := some "Titanic" } ∧
      (setMoviePost (some "u1") demoStore (some "")).status = 400 ∧
      (setMoviePost (some "u1") demoStore (some "")).store "u1" =
        some { favoriteMovie := some "Titanic" } ∧
      (setMoviePost (some "u1") demoStore none).status = 400 ∧
      (setMoviePost (some "u1") demoStore none).store "u1" =
        some { favoriteMovie := some "Titanic" } ∧
      (favoriteMoviePost (some "u1") demoStore (some " ")).status = 200 ∧
      (favoriteMoviePost (some "u1") demoStore (some " ")).store "u1" =
        some { favoriteMovie := some " " } ∧
      (favoriteMoviePost (some "u1") demoStore (some "")).status = 400 ∧
      (favoriteMoviePost (some "u1") demoStore (some "")).store "u1" =
        some { favoriteMovie := some "Titanic" } ∧
      (favoriteMoviePost (some "u1") demoStore none).status = 400 ∧
      (favoriteMoviePost (some "u1") demoStore none).store "u1" =
        some { favoriteMovie := some "Titanic" }) :=
  ⟨⟨rfl, by decide, by decide⟩,
    set_favorite_validation_amended "u1" demoStore { favoriteMovie := some "Titanic" } " "
      rfl (by decide) (by decide)⟩
